import Mathlib

/-!
A shallow embedding of the daemon supervisor in this repository.

The embedded code is taken from:
* `src/app/manager/daemon/deamon.py` (class `Daemon`),
* `src/app/manager/hell/hell.py` (class `Hell`),
* `src/app/manager/constants.py`,
* `src/app/api/routers/access.py` and `src/app/api/models.py`.

Interaction with the operating system (process spawning, liveness reports,
the filesystem, exit codes of helper commands, the clock) is passed in as
explicit environment records: one field per observation the Python code
makes.  Machine state alive at a given moment (process handle, counters,
registry, database rows) is passed around explicitly.  Python exceptions
are values of `PyErr`; a function that can raise returns the new state
together with an `Except PyErr` result, so that state reached before an
exception stays observable.
-/

namespace HellSpec

/-- Python-level exceptions raised by the embedded code.
`daemonIsRunning` is `DaemonIsRunningError`, `daemonIsNotRunning` is
`DaemonIsNotRunningError` (src/app/manager/daemon/exceptions.py); the other
constructors model built-in `KeyError`, `AttributeError` and `SystemExit`. -/
inductive PyErr where
  | daemonIsRunning
  | daemonIsNotRunning
  | keyError (key : String)
  | attributeError (attr : String)
  | systemExit (code : Nat)
  deriving DecidableEq, Repr

/-- `constants.CMD_PYTHON` (src/app/manager/constants.py line 60). -/
def CMD_PYTHON : String := "python"

/-- `constants.CMD_VENV_PYTHON_PATH` (line 62), rendered as a string. -/
def CMD_VENV_PYTHON_PATH : String := "bin/python"

/-- `constants.CMD_TO_DEV_NULL` (line 57). -/
def CMD_TO_DEV_NULL : List String := [">", "/dev/null"]

/-- `constants.MAX_FAILED_STARTS` (src/app/manager/constants.py line 21). -/
def MAX_FAILED_STARTS : Nat := 3

/-- `Config` dataclass (src/app/manager/daemon/structures.py).  Paths are
rendered as strings. -/
structure Config where
  name : String
  daemon_parent_folder : String
  daemon_folder : String
  requirements_path : Option String
  keep_running : Bool
  create_venv : Bool
  main_file_path : String
  main_file_arguments : List String
  git_repo_url : String := ""
  deriving DecidableEq, Repr

/-- The view the code has of a spawned child: its pid and whether psutil
`is_running()` currently reports the process alive.  Liveness is an OS
observation; environments below say how it changes at each OS interaction. -/
structure Proc where
  pid : Nat
  alive : Bool
  deriving DecidableEq, Repr

/-- The mutable fields of a `Daemon` object
(src/app/manager/daemon/deamon.py, `__init__`). -/
structure DaemonState where
  config : Config
  process : Option Proc
  venv_path : String
  installed_requirements : List String
  venv_created : Bool
  started_at : Option Nat
  starts_count : Nat
  start_attempts : Nat
  failed_starts : Nat
  deriving DecidableEq, Repr

/-- `Daemon.__init__(config, parent_folder)`. -/
def Daemon.initState (config : Config) (parent_folder : String) : DaemonState :=
  { config := config
    process := none
    venv_path := parent_folder ++ "/venv"
    installed_requirements := []
    venv_created := false
    started_at := none
    starts_count := 0
    start_attempts := 0
    failed_starts := 0 }

/-- `Daemon.is_running`: `self._process is not None and self._process.is_running()`. -/
def Daemon.is_running (d : DaemonState) : Bool :=
  match d.process with
  | none => false
  | some p => p.alive

/-- OS observations made by `Daemon._create_venv`: whether the venv directory
exists, whether `Cmd.verify()` succeeds, and the exit code of
`python -m venv`. -/
structure VenvEnv where
  venv_path_exists : Bool
  verify_ok : Bool
  venv_exit_code : Int
  deriving DecidableEq, Repr

/-- `Daemon._create_venv` (src/app/manager/daemon/deamon.py lines 141-168).
If the venv directory already exists the function warns and returns `True`
without touching `self._venv_created`; the flag is only set on the success
path of the creation command. -/
def Daemon.create_venv (env : VenvEnv) (d : DaemonState) : Bool × DaemonState :=
  if env.venv_path_exists then (true, d)
  else if env.verify_ok = false then (false, d)
  else if env.venv_exit_code ≠ 0 then (false, d)
  else (true, { d with venv_created := true })

/-- OS observations made by `Daemon._install_requirements`: the venv
observations, whether the requirements file exists, the exit code of
`pip install -r`, and the lines of the requirements file. -/
structure InstallEnv where
  venv : VenvEnv
  requirements_file_exists : Bool
  pip_exit_code : Int
  requirements_lines : List String
  deriving DecidableEq, Repr

/-- The guard `if self.config.create_venv and not self._create_venv(): ...`
of `_install_requirements`: the venv-creation step the call performed, as
return value and daemon state (`(True, unchanged)` when no venv is asked
for). -/
def Daemon.venv_step (env : InstallEnv) (d : DaemonState) : Bool × DaemonState :=
  if d.config.create_venv then Daemon.create_venv env.venv d else (true, d)

/-- `Daemon._install_requirements` (deamon.py lines 170-205).  Returns the
Python return value and the updated object state.  On success the object
records the requirements file lines in `self._installed_requirements`. -/
def Daemon.install_requirements (env : InstallEnv) (d : DaemonState) : Bool × DaemonState :=
  match d.config.requirements_path with
  | none => (false, d)
  | some _ =>
    if env.requirements_file_exists = false then (false, d)
    else if (Daemon.venv_step env d).1 = false then (false, (Daemon.venv_step env d).2)
    else if env.pip_exit_code ≠ 0 then (false, (Daemon.venv_step env d).2)
    else
      (true, { (Daemon.venv_step env d).2 with installed_requirements := env.requirements_lines })

/-- OS observations made by one `Daemon.start` call: the install
observations, the platform check, the pid of the spawned child, what
`is_running()` reports right after the spawn, and the current time. -/
structure StartEnv where
  install : InstallEnv
  is_windows : Bool
  spawn_pid : Nat
  spawn_alive : Bool
  now : Nat
  deriving DecidableEq, Repr

/-- The interpreter chosen by `Daemon.start`:
`python_command = constants.CMD_PYTHON` unless `self._venv_created` is set,
in which case `str(self._venv_path / constants.CMD_VENV_PYTHON_PATH)`. -/
def Daemon.python_command (d : DaemonState) : String :=
  if d.venv_created then d.venv_path ++ "/" ++ CMD_VENV_PYTHON_PATH else CMD_PYTHON

/-- The command built by `Daemon.start`:
`Cmd(python_command, str(self.config.main_file_path))`, with
`CMD_TO_DEV_NULL` appended on non-Windows platforms. -/
def Daemon.spawn_cmd (env : StartEnv) (d : DaemonState) : List String :=
  if env.is_windows then [Daemon.python_command d, d.config.main_file_path]
  else [Daemon.python_command d, d.config.main_file_path] ++ CMD_TO_DEV_NULL

instance {ε α : Type} [DecidableEq ε] [DecidableEq α] : DecidableEq (Except ε α) := fun x y =>
  match x, y with
  | Except.ok a, Except.ok b =>
    if h : a = b then isTrue (by rw [h]) else isFalse (by intro hc; cases hc; exact h rfl)
  | Except.error a, Except.error b =>
    if h : a = b then isTrue (by rw [h]) else isFalse (by intro hc; cases hc; exact h rfl)
  | Except.ok _, Except.error _ => isFalse (by intro hc; cases hc)
  | Except.error _, Except.ok _ => isFalse (by intro hc; cases hc)

/-- Result of a `Daemon.start` or `Daemon.stop` call: the object state after
the call, the returned value or the raised exception, and for `start` the
command handed to `IsolationProvider.run_in_sandbox` (if a spawn happened). -/
structure StartRes where
  state : DaemonState
  ret : Except PyErr Bool
  spawned_cmd : Option (List String)
  deriving DecidableEq, Repr

/-- The spawn half of `Daemon.start` (deamon.py lines 75-100): build the
command, spawn (`self._process` becomes the new handle), re-check
`is_running()`; on failure bump `_failed_starts`, on success set
`_started_at` and bump `_starts_count`. -/
def Daemon.spawn_phase (env : StartEnv) (d : DaemonState) : StartRes :=
  if Daemon.is_running
      { d with process := some { pid := env.spawn_pid, alive := env.spawn_alive } } = false then
    { state :=
        { d with
          process := some { pid := env.spawn_pid, alive := env.spawn_alive }
          failed_starts := d.failed_starts + 1 }
      ret := Except.ok false
      spawned_cmd := some (Daemon.spawn_cmd env d) }
  else
    { state :=
        { d with
          process := some { pid := env.spawn_pid, alive := env.spawn_alive }
          started_at := some env.now
          starts_count := d.starts_count + 1 }
      ret := Except.ok true
      spawned_cmd := some (Daemon.spawn_cmd env d) }

/-- The body of `Daemon.start` after the decorator and the
`self._start_attempts += 1` line (so `d` here already carries the bumped
counter).  If a requirements path is configured and
`self._installed_requirements` is still empty, `_install_requirements`
runs and its effect is judged by re-checking `_installed_requirements`
(the return value is discarded); an empty list counts as a failed start.
Otherwise control falls through to the spawn. -/
def Daemon.start_body (env : StartEnv) (d : DaemonState) : StartRes :=
  if d.config.requirements_path.isSome && d.installed_requirements.isEmpty then
    if (Daemon.install_requirements env.install d).2.installed_requirements.isEmpty then
      { state :=
          { (Daemon.install_requirements env.install d).2 with
            failed_starts := (Daemon.install_requirements env.install d).2.failed_starts + 1 }
        ret := Except.ok false
        spawned_cmd := none }
    else Daemon.spawn_phase env (Daemon.install_requirements env.install d).2
  else Daemon.spawn_phase env d

/-- `Daemon.start` (deamon.py lines 57-100), including the
`@running_required(False)` decorator (lines 41-56): a running daemon makes
the wrapper raise `DaemonIsRunningError` before the body runs, so nothing
is mutated.  Otherwise `_start_attempts` is bumped at entry and
`Daemon.start_body` runs. -/
def Daemon.start (env : StartEnv) (d0 : DaemonState) : StartRes :=
  if Daemon.is_running d0 then
    { state := d0, ret := Except.error PyErr.daemonIsRunning, spawned_cmd := none }
  else Daemon.start_body env { d0 with start_attempts := d0.start_attempts + 1 }

/-- The two process signals `Daemon.stop` can send. -/
inductive StopAction where
  | kill
  | terminate
  deriving DecidableEq, Repr

/-- OS observation made by `Daemon.stop`: what `is_running()` reports after
both signals were sent (psutil reports zombies of unreaped children as
still running, so this need not be `false`). -/
structure StopEnv where
  alive_after : Bool
  deriving DecidableEq, Repr

/-- Result of a `Daemon.stop` call: state, return or exception, and the
signals sent, in order. -/
structure StopRes where
  state : DaemonState
  ret : Except PyErr Bool
  actions : List StopAction
  deriving DecidableEq, Repr

/-- `Daemon.stop` (deamon.py lines 102-113), including the
`@running_required(True)` decorator: stopping a non-running daemon raises
`DaemonIsNotRunningError`.  The body is `self._process.kill()` followed
immediately by `self._process.terminate()` — no condition and no waiting
between the two — then `is_running()` decides the returned Boolean. -/
def Daemon.stop (env : StopEnv) (d0 : DaemonState) : StopRes :=
  match d0.process with
  | none =>
    { state := d0, ret := Except.error PyErr.daemonIsNotRunning, actions := [] }
  | some p =>
    if p.alive = false then
      { state := d0, ret := Except.error PyErr.daemonIsNotRunning, actions := [] }
    else
      { state := { d0 with process := some { p with alive := env.alive_after } }
        ret := Except.ok
          (!(Daemon.is_running { d0 with process := some { p with alive := env.alive_after } }))
        actions := [StopAction.kill, StopAction.terminate] }

/-- The `State` snapshot dataclass (src/app/manager/daemon/structures.py). -/
structure State where
  running : Bool
  pid : Nat
  memory_mb : ℚ
  cpu_percent : ℚ
  started_at : Option Nat
  starts_count : Nat
  start_attempts : Nat
  failed_starts : Nat
  venv_created : Bool
  installed_requirements : List String
  deriving DecidableEq, Repr

/-- OS observations made by `Daemon.get_state`: the RSS sample and the CPU
percentage sample. -/
structure StateEnv where
  rss_bytes : Nat
  cpu_percent : ℚ
  deriving DecidableEq, Repr

/-- `Daemon.get_state` (deamon.py lines 118-134).  It dereferences
`self._process` with no `None` check, so a daemon that was never started
raises `AttributeError`. -/
def Daemon.get_state (env : StateEnv) (d : DaemonState) : Except PyErr State :=
  match d.process with
  | none => Except.error (PyErr.attributeError "is_running")
  | some p =>
    Except.ok
      { running := p.alive
        pid := p.pid
        memory_mb := (env.rss_bytes : ℚ) / (1024 * 1024)
        cpu_percent := env.cpu_percent
        started_at := d.started_at
        starts_count := d.starts_count
        start_attempts := d.start_attempts
        failed_starts := d.failed_starts
        venv_created := d.venv_created
        installed_requirements := d.installed_requirements }

/-- One start/stop call on a daemon, with the observations the call makes. -/
inductive DOp where
  | start (env : StartEnv)
  | stop (env : StopEnv)
  deriving DecidableEq, Repr

/-- The daemon state after one call, whether the call returned or raised
(a raising call has mutated nothing). -/
def stepOp (d : DaemonState) : DOp → DaemonState
  | DOp.start env => (Daemon.start env d).state
  | DOp.stop env => (Daemon.stop env d).state

/-- The daemon state after a sequence of start/stop calls. -/
def runOps (d : DaemonState) (ops : List DOp) : DaemonState :=
  ops.foldl stepOp d

/-- The daemon state after a sequence of start calls only. -/
def runStarts (d : DaemonState) (envs : List StartEnv) : DaemonState :=
  envs.foldl (fun acc e => (Daemon.start e acc).state) d

/-- The daemon registry `Hell._daemons_mapping`, as an insertion-ordered
association list (Python dict keys are unique). -/
abbrev Registry := List (String × DaemonState)

/-- The fields of the `Hell` singleton used by the embedded operations
(src/app/manager/hell/hell.py, `__init__`). -/
structure HellState where
  daemons : Registry
  running : Bool
  deriving DecidableEq, Repr

/-- `Hell.__init__`: empty registry, not running. -/
def Hell.initState : HellState := { daemons := [], running := false }

/-- Python `self._daemons_mapping[name]` as a lookup returning `none` when
the key is absent (callers turn `none` into `KeyError`). -/
def lookupDaemon (name : String) : Registry → Option DaemonState
  | [] => none
  | nd :: rest => if nd.1 = name then some nd.2 else lookupDaemon name rest

/-- Replacing the daemon object stored under `name` (mutating the object
held in the dict). -/
def updateDaemon (name : String) (d : DaemonState) : Registry → Registry
  | [] => []
  | nd :: rest => (if nd.1 = name then (nd.1, d) else nd) :: updateDaemon name d rest

/-- Python truthiness of a `Daemon` instance: the class defines neither
`__bool__` nor `__len__`, so every instance is truthy and a guard
`if not daemon:` placed after a successful lookup can never be taken. -/
def daemonTruthy (_d : DaemonState) : Bool := true

/-- Outcome of `Hell.stop_daemon` / `Hell.start_daemon`, keeping the
`if not daemon: return False` branch distinguishable from a `False`
returned by the daemon call itself. -/
inductive CallOutcome where
  | raised (e : PyErr)
  | notFoundFalse
  | returned (b : Bool)
  deriving DecidableEq, Repr

/-- `Hell.search_daemon_by_name` (hell/hell.py lines 369-370):
`return self._daemons_mapping[name]`, so a missing name raises `KeyError`. -/
def Hell.search_daemon_by_name (name : String) (h : HellState) : Except PyErr DaemonState :=
  match lookupDaemon name h.daemons with
  | none => Except.error (PyErr.keyError name)
  | some d => Except.ok d

/-- `Hell.stop_daemon` (hell/hell.py lines 118-125): dict lookup (raising
`KeyError` on a missing name), the dead `if not daemon` guard, then
`daemon.stop()`. -/
def Hell.stop_daemon (env : StopEnv) (name : String) (h : HellState) :
    HellState × CallOutcome :=
  match lookupDaemon name h.daemons with
  | none => (h, CallOutcome.raised (PyErr.keyError name))
  | some d =>
    if daemonTruthy d = false then (h, CallOutcome.notFoundFalse)
    else
      ({ h with daemons := updateDaemon name (Daemon.stop env d).state h.daemons },
       match (Daemon.stop env d).ret with
       | Except.error e => CallOutcome.raised e
       | Except.ok b => CallOutcome.returned b)

/-- `Hell.start_daemon` (hell/hell.py lines 127-133): same shape as
`stop_daemon` with `daemon.start()`. -/
def Hell.start_daemon (env : StartEnv) (name : String) (h : HellState) :
    HellState × CallOutcome :=
  match lookupDaemon name h.daemons with
  | none => (h, CallOutcome.raised (PyErr.keyError name))
  | some d =>
    if daemonTruthy d = false then (h, CallOutcome.notFoundFalse)
    else
      ({ h with daemons := updateDaemon name (Daemon.start env d).state h.daemons },
       match (Daemon.start env d).ret with
       | Except.error e => CallOutcome.raised e
       | Except.ok b => CallOutcome.returned b)

/-- `Hell.restart_daemon` (hell/hell.py lines 136-142):
`search_daemon_by_name` (raising `KeyError` on a missing name), the dead
`if not daemon` guard, then `await daemon.stop() and await daemon.start()`
with Python short-circuiting: `start` runs only when `stop` returned
`True`, and exceptions from either call propagate. -/
def Hell.restart_daemon (env_stop : StopEnv) (env_start : StartEnv) (name : String)
    (h : HellState) : HellState × Except PyErr Bool :=
  match Hell.search_daemon_by_name name h with
  | Except.error e => (h, Except.error e)
  | Except.ok d =>
    if daemonTruthy d = false then (h, Except.ok false)
    else
      match (Daemon.stop env_stop d).ret with
      | Except.error e =>
        ({ h with daemons := updateDaemon name (Daemon.stop env_stop d).state h.daemons },
         Except.error e)
      | Except.ok false =>
        ({ h with daemons := updateDaemon name (Daemon.stop env_stop d).state h.daemons },
         Except.ok false)
      | Except.ok true =>
        ({ h with
            daemons := updateDaemon name
              (Daemon.start env_start (Daemon.stop env_stop d).state).state h.daemons },
         (Daemon.start env_start (Daemon.stop env_stop d).state).ret)

/-- Per-daemon OS observations for the calls `Hell._stop_all` makes. -/
structure StopAllEnv where
  stop_envs : String → StopEnv

/-- The first loop of `Hell._stop_all`: `await daemon.stop()` on every
running daemon (a non-running daemon is untouched). -/
def stopAllPass (env : StopAllEnv) (ds : Registry) : Registry :=
  ds.map (fun nd =>
    if Daemon.is_running nd.2 then (nd.1, (Daemon.stop (env.stop_envs nd.1) nd.2).state)
    else nd)

/-- `Hell._stop_all` (hell/hell.py lines 50-74): stop every running daemon,
then re-check.  If some daemon is still reported running, the fallback
branch runs `utils.kill_by_signal(daemon.get_pid(), signal.SIGTERM)` on
it — but `app/manager/utils.py` defines `get_hell_pids`, `send_signal` and
`singleton` and no `kill_by_signal`, so the first iteration of that loop
raises `AttributeError`: `_stop_all` never returns normally while a
survivor exists. -/
def Hell.stop_all (env : StopAllEnv) (h : HellState) : HellState × Except PyErr Unit :=
  if ((stopAllPass env h.daemons).filter (fun nd => Daemon.is_running nd.2)).isEmpty then
    ({ h with daemons := stopAllPass env h.daemons }, Except.ok ())
  else
    ({ h with daemons := stopAllPass env h.daemons },
     Except.error (PyErr.attributeError "kill_by_signal"))

/-- `Hell.stop` (hell/hell.py lines 28-48).  Cancelling and awaiting the
watcher task is clean (`__check_daemons_state` swallows `CancelledError`),
so the call reduces to the guard, clearing `self.running`, and
`_stop_all`. -/
def Hell.stop (env : StopAllEnv) (h : HellState) : HellState × Except PyErr (Bool × String) :=
  if h.running = false then (h, Except.ok (false, "System is not running"))
  else
    match Hell.stop_all env { h with running := false } with
    | (h2, Except.error e) => (h2, Except.error e)
    | (h2, Except.ok _) => (h2, Except.ok (true, "System stopped"))

/-- The per-daemon YAML settings recognized by `Hell._create_daemon`. -/
structure DaemonYaml where
  dir : Option String
  target : Option String
  arguments : Option (List String)
  requirements : Option String
  auto_restart : Option Bool
  virtualenv : Option Bool
  deriving DecidableEq, Repr

/-- The value of the `daemons` key of the configuration document. -/
abbrev DaemonsMapping := List (String × DaemonYaml)

/-- The loaded YAML document, restricted to the `daemons` key; the empty
document is `[]`.  The other recognized top-level keys (`daemons-path`,
`default-args`, `default-venv`, `default-auto-restart`) are consumed only
by `Hell._update_constants` via `config.get` with defaults, which cannot
affect the control flow embedded here (see `Hell.update_constants`). -/
abbrev ConfigDoc := List (String × DaemonsMapping)

/-- Python `config[key]`: raises `KeyError` when the key is absent. -/
def pyDictGetItem {α : Type} (d : List (String × α)) (key : String) : Except PyErr α :=
  match d.find? (fun kv => kv.1 == key) with
  | some kv => Except.ok kv.2
  | none => Except.error (PyErr.keyError key)

/-- OS observations made by `Hell.start`: whether `daemons.yaml` exists,
what `yaml.safe_load` produced (`none` for an empty file), and the
per-daemon observations of `_start_all`. -/
structure GlobalEnv where
  config_file_exists : Bool
  yaml_document : Option ConfigDoc
  start_envs : String → StartEnv

/-- `Hell._load_config` (hell/hell.py lines 213-229): a missing file calls
`exit(1)`; a document loading as `None` or `{}` is logged critical
("Config file is empty") and replaced by `{}` (here `[]`, which is also
what `some []` maps to). -/
def Hell.load_config (env : GlobalEnv) : Except PyErr ConfigDoc :=
  if env.config_file_exists = false then Except.error (PyErr.systemExit 1)
  else
    match env.yaml_document with
    | none => Except.ok []
    | some cfg => Except.ok cfg

/-- `Hell._update_constants` (hell/hell.py lines 185-211).  Its first
statement is
`constants.DAEMONS_PATH = config.get("daemons-path", constants.DAEMONS_FOLDER_PATH)`
and the default argument is evaluated eagerly; `app/manager/constants.py`
defines `DAEMONS_PATH` but never `DAEMONS_FOLDER_PATH`, so every call
raises `AttributeError` before reading any configuration value. -/
def Hell.update_constants (_config : ConfigDoc) : Except PyErr Unit :=
  Except.error (PyErr.attributeError "DAEMONS_FOLDER_PATH")

/-- `Hell._load_daemons` (hell/hell.py lines 305-325).  It begins with
`if not config["daemons"]:`, a raw subscript that raises `KeyError` on a
document without that key — in particular on the empty document — before
any daemon is added to the registry.  With a non-empty `daemons` mapping
the loop calls `_create_daemon`, whose first statement evaluates
`constants.DAEMONS_FOLDER_PATH / daemon_directory` (line 258) and raises
the same `AttributeError` as `Hell.update_constants`. -/
def Hell.load_daemons (config : ConfigDoc) (h : HellState) : HellState × Except PyErr Bool :=
  match pyDictGetItem config "daemons" with
  | Except.error e => (h, Except.error e)
  | Except.ok daemons =>
    if daemons.isEmpty then (h, Except.ok false)
    else (h, Except.error (PyErr.attributeError "DAEMONS_FOLDER_PATH"))

/-- The registry after the concurrent starts of `Hell._start_all`. -/
def startAllPass (envs : String → StartEnv) (ds : Registry) : Registry :=
  ds.map (fun nd => (nd.1, (Daemon.start (envs nd.1) nd.2).state))

/-- The error tally of `Hell._start_all`: starts that returned `False` or
raised are counted. -/
def startAllErrors (envs : String → StartEnv) (ds : Registry) : Nat :=
  ds.countP (fun nd =>
    match (Daemon.start (envs nd.1) nd.2).ret with
    | Except.ok true => false
    | _ => true)

/-- `Hell._start_all` (hell/hell.py lines 327-357): with an empty registry
return `False`; otherwise start every daemon, tally the failures, and
return `errors < len(self._daemons_mapping)`. -/
def Hell.start_all (envs : String → StartEnv) (h : HellState) : HellState × Except PyErr Bool :=
  if h.daemons.isEmpty then (h, Except.ok false)
  else
    ({ h with daemons := startAllPass envs h.daemons },
     Except.ok (decide (startAllErrors envs h.daemons < h.daemons.length)))

/-- `Hell.start` (hell/hell.py lines 76-102): re-run `__init__`, set
`self.running`, load the configuration, `_update_constants`,
`_load_daemons` (return value discarded), `_start_all`, then the watcher
task (whose creation succeeds).  Exceptions propagate to the caller. -/
def Hell.start (env : GlobalEnv) : HellState × Except PyErr (Bool × String) :=
  match Hell.load_config env with
  | Except.error e => ({ Hell.initState with running := true }, Except.error e)
  | Except.ok config =>
    match Hell.update_constants config with
    | Except.error e => ({ Hell.initState with running := true }, Except.error e)
    | Except.ok _ =>
      match Hell.load_daemons config { Hell.initState with running := true } with
      | (h1, Except.error e) => (h1, Except.error e)
      | (h1, Except.ok _) =>
        match Hell.start_all env.start_envs h1 with
        | (h2, Except.error e) => (h2, Except.error e)
        | (h2, Except.ok false) => (h2, Except.ok (false, "Cant start any daemon"))
        | (h2, Except.ok true) => (h2, Except.ok (true, "Successfully started system"))

/-- Per-daemon OS observations for one watcher iteration. -/
structure WatcherEnv where
  start_envs : String → StartEnv

/-- The daemon state after `await daemon.start()` as the watcher performs
it (the call cannot raise there, since the daemon was observed not
running; the state is taken whatever the return value). -/
def startTotal (env : StartEnv) (d : DaemonState) : DaemonState :=
  (Daemon.start env d).state

/-- The restart loop body of `Hell.__check_daemons_state` (hell/hell.py
lines 163-166): for a pending daemon, restart only if
`daemon.get_failed_starts() < constants.MAX_FAILED_STARTS`. -/
def watcherStep (env : WatcherEnv) (acc : Registry × List String) (m : String) :
    Registry × List String :=
  match lookupDaemon m acc.1 with
  | none => acc
  | some d =>
    if d.failed_starts < MAX_FAILED_STARTS then
      (updateDaemon m (startTotal (env.start_envs m) d) acc.1, acc.2 ++ [m])
    else acc

/-- One iteration of `Hell.__check_daemons_state` (hell/hell.py lines
153-175): collect the daemons observed not running whose config says
`keep_running`, then attempt a restart for each one whose `failed_starts`
budget remains.  Returns the new registry and the names for which a
restart was attempted. -/
def Hell.check_iteration (env : WatcherEnv) (ds : Registry) : Registry × List String :=
  ((ds.filter (fun nd => !(Daemon.is_running nd.2) && nd.2.config.keep_running)).map
    Prod.fst).foldl (watcherStep env) (ds, [])

/-- `k` consecutive watcher iterations (iteration `i` observing the OS
through `envs i`), together with every daemon name for which a restart
was attempted in any of them. -/
def Hell.check_iterations (envs : Nat → WatcherEnv) : Nat → Registry → Registry × List String
  | 0, ds => (ds, [])
  | Nat.succ k, ds =>
    ((Hell.check_iterations (fun i => envs (i + 1)) k (Hell.check_iteration (envs 0) ds).1).1,
     (Hell.check_iteration (envs 0) ds).2 ++
       (Hell.check_iterations (fun i => envs (i + 1)) k (Hell.check_iteration (envs 0) ds).1).2)

/-- A row of the `invitations` table (src/app/api/models.py, class
`Invitation`).  Timestamps are abstract instants (naturals). -/
structure Invitation where
  id : Nat
  created_at : Nat
  code : String
  active : Bool
  used_at : Option Nat
  expires_at : Nat
  deriving DecidableEq, Repr

/-- A row of the `api_keys` table (src/app/api/models.py, class `APIKey`). -/
structure APIKeyRow where
  id : Nat
  created_at : Nat
  invitation_id : Nat
  token : String
  active : Bool
  last_used : Option Nat
  deriving DecidableEq, Repr

/-- The SQLite store backing the two tables. -/
structure Store where
  invitations : List Invitation
  api_keys : List APIKeyRow
  deriving DecidableEq, Repr

/-- `inv.save()`: update the row with the same primary key. -/
def saveInvitation (st : Store) (inv : Invitation) : Store :=
  { st with invitations := st.invitations.map (fun i => if i.id = inv.id then inv else i) }

/-- What the client observes from one call of the route handler:
an `HTTPException` raised by the handler (FastAPI answers with its status
code), a normal `{token}` response, or an exception the handler does not
raise deliberately and does not catch (FastAPI answers 500 Internal
Server Error). -/
inductive HandlerOutcome where
  | httpException (status : Nat) (detail : String)
  | okToken (token : String)
  | uncaughtError (e : PyErr)
  deriving DecidableEq, Repr

/-- Python attribute lookup `<datetime>.to_value`.  `datetime.datetime`
(the type peewee hands back for a `DateTimeField`) has no attribute
`to_value`, so the access raises `AttributeError`.
`generate_api_key` (src/app/api/routers/access.py line 66) evaluates
`inv.expires_at.to_value().strftime(...)` inside the f-string that builds
the detail of its intended 400 response. -/
def datetime_to_value (_t : Nat) : Except PyErr Nat :=
  Except.error (PyErr.attributeError "to_value")

/-- `generate_api_key`, the handler of `POST /api/create/token`
(src/app/api/routers/access.py lines 47-77).  `now` is `datetime.now()`,
`new_token` the value of `generate_token()`, `new_key_id` the primary key
the insert assigns.  Checks run in source order: unknown code → 400,
inactive → 400, expired → mark inactive, save, then build the 400 detail
(which evaluates `datetime_to_value`); otherwise create the key, mark the
invitation used, and answer with the token. -/
def generate_api_key (now : Nat) (new_token : String) (new_key_id : Nat)
    (invitation_code : String) (st : Store) : Store × HandlerOutcome :=
  match st.invitations.find? (fun i => i.code == invitation_code) with
  | none => (st, HandlerOutcome.httpException 400 "Invalid invitation code")
  | some inv =>
    if inv.active = false then
      (st, HandlerOutcome.httpException 400 "Invitation code already used")
    else if inv.expires_at < now then
      match datetime_to_value inv.expires_at with
      | Except.error e =>
        (saveInvitation st { inv with active := false }, HandlerOutcome.uncaughtError e)
      | Except.ok _ =>
        (saveInvitation st { inv with active := false },
         HandlerOutcome.httpException 400 "Invitation expired")
    else
      (saveInvitation
        { st with
          api_keys := st.api_keys ++
            [{ id := new_key_id
               created_at := now
               invitation_id := inv.id
               token := new_token
               active := true
               last_used := none }] }
        { inv with active := false, used_at := some now },
       HandlerOutcome.okToken new_token)

/-! ### Concrete fixtures

Closed inputs used by the witness and counterexample theorems below. -/

/-- A daemon configuration with no requirements and no venv. -/
def cfg0 : Config :=
  { name := "echo"
    daemon_parent_folder := "daemons"
    daemon_folder := "daemons/echo"
    requirements_path := none
    keep_running := false
    create_venv := false
    main_file_path := "daemons/echo/main.py"
    main_file_arguments := []
    git_repo_url := "" }

/-- A daemon configuration with auto-restart switched on. -/
def cfgKeep : Config :=
  { cfg0 with name := "flaky", keep_running := true }

/-- A freshly constructed daemon. -/
def dFresh : DaemonState := Daemon.initState cfg0 "daemons"

/-- A daemon whose child is currently reported alive. -/
def dRun : DaemonState := { dFresh with process := some { pid := 7, alive := true } }

/-- An auto-restart daemon observed dead with its budget exhausted
(3 attempts, 0 successes, 3 failed starts). -/
def dExhausted : DaemonState :=
  { Daemon.initState cfgKeep "daemons" with
    process := some { pid := 9, alive := false }
    start_attempts := 3
    failed_starts := 3 }

/-- Start observations for a spawn that comes up alive. -/
def envStartOk : StartEnv :=
  { install :=
      { venv := { venv_path_exists := true, verify_ok := true, venv_exit_code := 0 }
        requirements_file_exists := true
        pip_exit_code := 0
        requirements_lines := ["loguru"] }
    is_windows := false
    spawn_pid := 42
    spawn_alive := true
    now := 100 }

/-- Stop observations for a child that dies at the signals. -/
def envStopDead : StopEnv := { alive_after := false }

/-- Stop observations for a child that survives the signals. -/
def envStopStuck : StopEnv := { alive_after := true }

/-- A supervisor running one live daemon. -/
def hRunning : HellState := { daemons := [("echo", dRun)], running := true }

/-- An auto-restart daemon observed dead with budget remaining. -/
def dPending : DaemonState :=
  { Daemon.initState cfgKeep "daemons" with
    process := some { pid := 3, alive := false }
    start_attempts := 1
    failed_starts := 1 }

/-- Watcher observations: every restart spawn comes up alive. -/
def wenv : WatcherEnv := { start_envs := fun _ => envStartOk }

/-- Stop observations for the whole registry: every child dies. -/
def stopEnvAllDead : StopAllEnv := { stop_envs := fun _ => envStopDead }

/-- The `echo` daemon after a successful global stop. -/
def dStopped7 : DaemonState := { dFresh with process := some { pid := 7, alive := false } }

/-- The supervisor state after `Hell.stop` succeeds on `hRunning`. -/
def hStopped : HellState := { daemons := [("echo", dStopped7)], running := false }

/-- Venv observations for a venv directory that already exists. -/
def venvExistsEnv : VenvEnv :=
  { venv_path_exists := true, verify_ok := true, venv_exit_code := 0 }

/-- The `echo` daemon after a successful `restart_daemon` on `hRunning`
(stopped with an effective kill, then respawned through `envStartOk`). -/
def dRestarted : DaemonState :=
  { dStopped7 with
    process := some { pid := 42, alive := true }
    started_at := some 100
    starts_count := 1
    start_attempts := 1 }

/-- The supervisor state after that successful `restart_daemon`. -/
def hRestarted : HellState := { daemons := [("echo", dRestarted)], running := true }

/-- Global-start observations for an existing but empty `daemons.yaml`. -/
def envEmptyConfig : GlobalEnv :=
  { config_file_exists := true
    yaml_document := none
    start_envs := fun _ => envStartOk }

/-- A stored invitation that is still active but already expired at
instant 50. -/
def invExpired : Invitation :=
  { id := 1
    created_at := 10
    code := "C"
    active := true
    used_at := none
    expires_at := 34 }

/-- A store holding only `invExpired`. -/
def storeExpired : Store := { invitations := [invExpired], api_keys := [] }

/-! ### Helper lemmas about the daemon state machine -/

theorem create_venv_state (env : VenvEnv) (d : DaemonState) :
    (Daemon.create_venv env d).2 = d ∨
      (Daemon.create_venv env d).2 = { d with venv_created := true } := by
  unfold Daemon.create_venv
  repeat' split
  all_goals simp

theorem create_venv_exists (env : VenvEnv) (d : DaemonState)
    (h : env.venv_path_exists = true) : Daemon.create_venv env d = (true, d) := by
  unfold Daemon.create_venv
  simp [h]

theorem venv_step_state (env : InstallEnv) (d : DaemonState) :
    (Daemon.venv_step env d).2 = d ∨
      (Daemon.venv_step env d).2 = { d with venv_created := true } := by
  unfold Daemon.venv_step
  split
  · exact create_venv_state env.venv d
  · left
    rfl

theorem venv_step_exists (env : InstallEnv) (d : DaemonState)
    (h : env.venv.venv_path_exists = true) : Daemon.venv_step env d = (true, d) := by
  unfold Daemon.venv_step
  split
  · exact create_venv_exists env.venv d h
  · rfl

theorem install_requirements_counters (env : InstallEnv) (d : DaemonState) :
    (Daemon.install_requirements env d).2.starts_count = d.starts_count ∧
    (Daemon.install_requirements env d).2.start_attempts = d.start_attempts ∧
    (Daemon.install_requirements env d).2.failed_starts = d.failed_starts ∧
    (Daemon.install_requirements env d).2.process = d.process := by
  unfold Daemon.install_requirements
  rcases venv_step_state env d with hv | hv <;>
    · repeat' split
      all_goals simp [hv]

theorem install_requirements_venv (env : InstallEnv) (d : DaemonState)
    (h : env.venv.venv_path_exists = true) :
    (Daemon.install_requirements env d).2.venv_created = d.venv_created := by
  unfold Daemon.install_requirements
  rw [venv_step_exists env d h]
  repeat' split
  all_goals simp

theorem spawn_phase_venv (env : StartEnv) (d : DaemonState) :
    (Daemon.spawn_phase env d).state.venv_created = d.venv_created := by
  unfold Daemon.spawn_phase
  split <;> simp

theorem spawn_phase_cmd (env : StartEnv) (d : DaemonState) :
    (Daemon.spawn_phase env d).spawned_cmd = some (Daemon.spawn_cmd env d) := by
  unfold Daemon.spawn_phase
  split <;> rfl

theorem spawn_cmd_head (env : StartEnv) (d : DaemonState) (h : d.venv_created = false) :
    (Daemon.spawn_cmd env d).head? = some CMD_PYTHON := by
  unfold Daemon.spawn_cmd Daemon.python_command
  cases hw : env.is_windows <;> simp [h]

theorem spawn_phase_attempts (env : StartEnv) (d : DaemonState) :
    (Daemon.spawn_phase env d).state.start_attempts = d.start_attempts := by
  unfold Daemon.spawn_phase
  split <;> simp

theorem spawn_phase_spec (env : StartEnv) (d : DaemonState) :
    ((Daemon.spawn_phase env d).ret = Except.ok true ∧
      (Daemon.spawn_phase env d).state.starts_count = d.starts_count + 1 ∧
      (Daemon.spawn_phase env d).state.failed_starts = d.failed_starts ∧
      Daemon.is_running (Daemon.spawn_phase env d).state = true) ∨
    ((Daemon.spawn_phase env d).ret = Except.ok false ∧
      (Daemon.spawn_phase env d).state.starts_count = d.starts_count ∧
      (Daemon.spawn_phase env d).state.failed_starts = d.failed_starts + 1) := by
  unfold Daemon.spawn_phase
  split
  · right
    simp
  · left
    rename_i hrun
    simp only [Bool.not_eq_false] at hrun
    refine ⟨rfl, by simp, by simp, ?_⟩
    simpa [Daemon.is_running] using hrun

theorem start_body_spec (env : StartEnv) (d : DaemonState) :
    (Daemon.start_body env d).state.start_attempts = d.start_attempts ∧
    (((Daemon.start_body env d).ret = Except.ok true ∧
       (Daemon.start_body env d).state.starts_count = d.starts_count + 1 ∧
       (Daemon.start_body env d).state.failed_starts = d.failed_starts ∧
       Daemon.is_running (Daemon.start_body env d).state = true) ∨
     ((Daemon.start_body env d).ret = Except.ok false ∧
       (Daemon.start_body env d).state.starts_count = d.starts_count ∧
       (Daemon.start_body env d).state.failed_starts = d.failed_starts + 1)) := by
  obtain ⟨hc, ha, hf, -⟩ := install_requirements_counters env.install d
  unfold Daemon.start_body
  split
  · split
    · exact ⟨by simpa using ha, Or.inr ⟨rfl, by simpa using hc, by simp [hf]⟩⟩
    · refine ⟨(spawn_phase_attempts env _).trans ha, ?_⟩
      rcases spawn_phase_spec env (Daemon.install_requirements env.install d).2 with hs | hs
      · exact Or.inl ⟨hs.1, hs.2.1.trans (by rw [hc]), hs.2.2.1.trans hf, hs.2.2.2⟩
      · exact Or.inr ⟨hs.1, hs.2.1.trans hc, hs.2.2.trans (by rw [hf])⟩
  · refine ⟨spawn_phase_attempts env d, ?_⟩
    rcases spawn_phase_spec env d with hs | hs
    · exact Or.inl ⟨hs.1, hs.2.1, hs.2.2.1, hs.2.2.2⟩
    · exact Or.inr ⟨hs.1, hs.2.1, hs.2.2⟩

/-- Case analysis of one `Daemon.start` call: a running daemon raises and
mutates nothing; otherwise `_start_attempts` goes up by one and the call
either returns `True` with `_starts_count` up by one and a live process,
or returns `False` with `_failed_starts` up by one. -/
theorem start_spec (env : StartEnv) (d0 : DaemonState) :
    (Daemon.is_running d0 = true ∧
      Daemon.start env d0 =
        { state := d0, ret := Except.error PyErr.daemonIsRunning, spawned_cmd := none }) ∨
    (Daemon.is_running d0 = false ∧
      (Daemon.start env d0).state.start_attempts = d0.start_attempts + 1 ∧
      (((Daemon.start env d0).ret = Except.ok true ∧
         (Daemon.start env d0).state.starts_count = d0.starts_count + 1 ∧
         (Daemon.start env d0).state.failed_starts = d0.failed_starts ∧
         Daemon.is_running (Daemon.start env d0).state = true) ∨
       ((Daemon.start env d0).ret = Except.ok false ∧
         (Daemon.start env d0).state.starts_count = d0.starts_count ∧
         (Daemon.start env d0).state.failed_starts = d0.failed_starts + 1))) := by
  by_cases hrun : Daemon.is_running d0
  · left
    refine ⟨hrun, ?_⟩
    unfold Daemon.start
    simp [hrun]
  · right
    simp only [Bool.not_eq_true] at hrun
    refine ⟨hrun, ?_⟩
    have hu : Daemon.start env d0 =
        Daemon.start_body env { d0 with start_attempts := d0.start_attempts + 1 } := by
      unfold Daemon.start
      simp [hrun]
    obtain ⟨ha, hrest⟩ := start_body_spec env { d0 with start_attempts := d0.start_attempts + 1 }
    rw [hu]
    exact ⟨by simpa using ha, by simpa using hrest⟩

theorem stop_counters (env : StopEnv) (d0 : DaemonState) :
    (Daemon.stop env d0).state.starts_count = d0.starts_count ∧
    (Daemon.stop env d0).state.start_attempts = d0.start_attempts ∧
    (Daemon.stop env d0).state.failed_starts = d0.failed_starts ∧
    (Daemon.stop env d0).state.venv_created = d0.venv_created := by
  unfold Daemon.stop
  repeat' split
  all_goals simp

theorem get_state_running (senv : StateEnv) (d : DaemonState)
    (h : Daemon.is_running d = true) :
    ∃ s, Daemon.get_state senv d = Except.ok s ∧ s.running = true := by
  cases hp : d.process with
  | none => simp [Daemon.is_running, hp] at h
  | some p =>
    have hal : p.alive = true := by simpa [Daemon.is_running, hp] using h
    refine ⟨{ running := p.alive
              pid := p.pid
              memory_mb := (senv.rss_bytes : ℚ) / (1024 * 1024)
              cpu_percent := senv.cpu_percent
              started_at := d.started_at
              starts_count := d.starts_count
              start_attempts := d.start_attempts
              failed_starts := d.failed_starts
              venv_created := d.venv_created
              installed_requirements := d.installed_requirements }, ?_, hal⟩
    simp [Daemon.get_state, hp]

theorem start_preserves_venv (env : StartEnv) (d : DaemonState)
    (hx : env.install.venv.venv_path_exists = true) (hv : d.venv_created = false) :
    (Daemon.start env d).state.venv_created = false := by
  unfold Daemon.start Daemon.start_body
  split
  · exact hv
  · split
    · split
      · simpa using
          (install_requirements_venv env.install
            { d with start_attempts := d.start_attempts + 1 } hx).trans (by simpa using hv)
      · rw [spawn_phase_venv]
        simpa using
          (install_requirements_venv env.install
            { d with start_attempts := d.start_attempts + 1 } hx).trans (by simpa using hv)
    · rw [spawn_phase_venv]
      simpa using hv

theorem start_cmd_python (env : StartEnv) (d : DaemonState)
    (hx : env.install.venv.venv_path_exists = true) (hv : d.venv_created = false) :
    ∀ c, (Daemon.start env d).spawned_cmd = some c → c.head? = some CMD_PYTHON := by
  intro c hc
  unfold Daemon.start Daemon.start_body at hc
  split at hc
  · cases hc
  · have hv1 : (({ d with start_attempts := d.start_attempts + 1 } :
        DaemonState)).venv_created = false := by simpa using hv
    split at hc
    · split at hc
      · cases hc
      · rw [spawn_phase_cmd] at hc
        cases hc
        exact spawn_cmd_head env _
          ((install_requirements_venv env.install
            { d with start_attempts := d.start_attempts + 1 } hx).trans hv1)
    · rw [spawn_phase_cmd] at hc
      cases hc
      exact spawn_cmd_head env _ hv1

/-- The counter invariant of the daemon state machine:
`failed_starts + starts_count = start_attempts`. -/
def countersInv (d : DaemonState) : Prop :=
  d.failed_starts + d.starts_count = d.start_attempts

theorem stepOp_counters (d : DaemonState) (op : DOp) (h : countersInv d) :
    countersInv (stepOp d op) := by
  unfold countersInv at h ⊢
  cases op with
  | start env =>
    rcases start_spec env d with ⟨-, hs⟩ | ⟨-, ha, hc | hc⟩
    · simp [stepOp, hs, h]
    · simp only [stepOp, ha, hc.2.1, hc.2.2.1]
      omega
    · simp only [stepOp, ha, hc.2.1, hc.2.2]
      omega
  | stop env =>
    obtain ⟨h1, h2, h3, -⟩ := stop_counters env d
    simp only [stepOp, h1, h2, h3]
    exact h

theorem runOps_counters (d : DaemonState) (ops : List DOp) (h : countersInv d) :
    countersInv (runOps d ops) := by
  induction ops generalizing d with
  | nil => exact h
  | cons op rest ih => exact ih (stepOp d op) (stepOp_counters d op h)

theorem initState_counters (cfg : Config) (pf : String) :
    countersInv (Daemon.initState cfg pf) := by
  unfold countersInv Daemon.initState
  simp

/-! ### Helper lemmas about the registry -/

theorem lookupDaemon_updateDaemon_ne (n m : String) (d : DaemonState) (ds : Registry)
    (h : m ≠ n) : lookupDaemon n (updateDaemon m d ds) = lookupDaemon n ds := by
  induction ds with
  | nil => rfl
  | cons hd tl ih =>
    by_cases h1 : hd.1 = m
    · have h2 : hd.1 ≠ n := fun hc => h (h1.symm.trans hc)
      simp [lookupDaemon, updateDaemon, h1, h2, h, ih]
    · by_cases h2 : hd.1 = n
      · simp [lookupDaemon, updateDaemon, h1, h2, Ne.symm h]
      · simp [lookupDaemon, updateDaemon, h1, h2, ih]

theorem lookupDaemon_updateDaemon_eq (n : String) (d d0 : DaemonState) (ds : Registry)
    (h : lookupDaemon n ds = some d0) :
    lookupDaemon n (updateDaemon n d ds) = some d := by
  induction ds with
  | nil => cases h
  | cons hd tl ih =>
    by_cases h1 : hd.1 = n
    · simp [lookupDaemon, updateDaemon, h1]
    · simp only [lookupDaemon, updateDaemon, if_neg h1] at h ⊢
      exact ih h

/-- The joint invariant of the watcher restart fold: a name already in the
attempted list was looked up with remaining budget at the moment of its
restart, and a name not in the attempted list still maps to its original
daemon state. -/
def watcherInv (ds : Registry) (acc : Registry × List String) : Prop :=
  ∀ n : String,
    (n ∈ acc.2 →
      ∃ d, lookupDaemon n ds = some d ∧ d.failed_starts < MAX_FAILED_STARTS) ∧
    (n ∉ acc.2 → lookupDaemon n acc.1 = lookupDaemon n ds)

theorem watcherStep_inv (env : WatcherEnv) (ds : Registry) (acc : Registry × List String)
    (m : String) (H : watcherInv ds acc) : watcherInv ds (watcherStep env acc m) := by
  unfold watcherStep
  split
  · exact H
  · rename_i dm hdm
    split
    · rename_i hbudget
      intro n
      constructor
      · intro hn
        simp only [List.mem_append, List.mem_singleton] at hn
        rcases hn with hn | rfl
        · exact (H n).1 hn
        · by_cases hm : n ∈ acc.2
          · exact (H n).1 hm
          · exact ⟨dm, ((H n).2 hm).symm.trans hdm, hbudget⟩
      · intro hn
        simp only [List.mem_append, List.mem_singleton] at hn
        push_neg at hn
        obtain ⟨hn1, hn2⟩ := hn
        rw [lookupDaemon_updateDaemon_ne n m _ acc.1 (fun hc => hn2 hc.symm)]
        exact (H n).2 hn1
    · exact H

theorem watcherFold_inv (env : WatcherEnv) (ds : Registry) (pend : List String)
    (acc : Registry × List String) (H : watcherInv ds acc) :
    watcherInv ds (pend.foldl (watcherStep env) acc) := by
  induction pend generalizing acc with
  | nil => exact H
  | cons m rest ih => exact ih _ (watcherStep_inv env ds acc m H)

theorem check_iteration_inv (env : WatcherEnv) (ds : Registry) :
    watcherInv ds (Hell.check_iteration env ds) := by
  unfold Hell.check_iteration
  refine watcherFold_inv env ds _ (ds, []) ?_
  intro n
  exact ⟨fun hn => absurd hn (List.not_mem_nil n), fun _ => rfl⟩

theorem check_iteration_exhausted (env : WatcherEnv) (ds : Registry) (n : String)
    (d : DaemonState) (hl : lookupDaemon n ds = some d)
    (hb : MAX_FAILED_STARTS ≤ d.failed_starts) :
    n ∉ (Hell.check_iteration env ds).2 ∧
      lookupDaemon n (Hell.check_iteration env ds).1 = some d := by
  have H := check_iteration_inv env ds
  have hnot : n ∉ (Hell.check_iteration env ds).2 := by
    intro hn
    obtain ⟨d2, hd2, hlt⟩ := (H n).1 hn
    rw [hl, Option.some_inj] at hd2
    subst hd2
    exact absurd hlt (not_lt.mpr hb)
  exact ⟨hnot, ((H n).2 hnot).trans hl⟩

theorem check_iterations_exhausted (envs : Nat → WatcherEnv) (k : Nat) (ds : Registry)
    (n : String) (d : DaemonState) (hl : lookupDaemon n ds = some d)
    (hb : MAX_FAILED_STARTS ≤ d.failed_starts) :
    n ∉ (Hell.check_iterations envs k ds).2 ∧
      lookupDaemon n (Hell.check_iterations envs k ds).1 = some d := by
  induction k generalizing envs ds with
  | zero => exact ⟨List.not_mem_nil n, hl⟩
  | succ k ih =>
    obtain ⟨h1, h2⟩ := check_iteration_exhausted (envs 0) ds n d hl hb
    obtain ⟨h3, h4⟩ := ih (fun i => envs (i + 1)) (Hell.check_iteration (envs 0) ds).1 h2
    unfold Hell.check_iterations
    refine ⟨?_, h4⟩
    intro hc
    rcases List.mem_append.mp hc with hc | hc
    exacts [h1 hc, h3 hc]

/-! ### Helper lemmas about global stop -/

theorem stop_all_ok (env : StopAllEnv) (h h2 : HellState) (u : Unit)
    (hs : Hell.stop_all env h = (h2, Except.ok u)) :
    ∀ nd ∈ h2.daemons, Daemon.is_running nd.2 = false := by
  unfold Hell.stop_all at hs
  split at hs
  · rename_i hempty
    rw [List.isEmpty_iff] at hempty
    cases hs
    intro nd hnd
    by_contra hrun
    simp only [Bool.not_eq_false] at hrun
    have hmem : nd ∈ (stopAllPass env h.daemons).filter (fun nd => Daemon.is_running nd.2) :=
      List.mem_filter.mpr ⟨hnd, hrun⟩
    rw [hempty] at hmem
    exact absurd hmem (List.not_mem_nil nd)
  · simp [Prod.ext_iff] at hs

/-! ### Claim theorems -/

/-- C1: for every daemon whose `is_running()` reports true, `Daemon.start()`
does not proceed: it fails with the typed error DAEMON_ALREADY_RUNNING
(`DaemonIsRunningError`) and leaves the whole daemon state — in particular
`starts_count`, `start_attempts` and the process handle — unchanged, and no
spawn happens. -/
theorem C1_start_on_running_daemon (env : StartEnv) (d : DaemonState)
    (h : Daemon.is_running d = true) :
    Daemon.start env d =
      { state := d, ret := Except.error PyErr.daemonIsRunning, spawned_cmd := none } := by
  rcases start_spec env d with ⟨-, hs⟩ | ⟨hf, -⟩
  · exact hs
  · rw [h] at hf
    cases hf

/-- Witness for C1: a concrete running daemon. -/
theorem C1_start_on_running_daemon_witness :
    Daemon.is_running dRun = true ∧
    Daemon.start envStartOk dRun =
      { state := dRun, ret := Except.error PyErr.daemonIsRunning, spawned_cmd := none } :=
  ⟨rfl, C1_start_on_running_daemon envStartOk dRun rfl⟩

/-- C4 counterexample: at a concrete running daemon whose child dies at the
signals, `Daemon.stop` sends `kill` first — its signal trace is
`[kill, terminate]`, and the first signal is not the graceful `terminate`
the claim promises. -/
theorem C4_counterexample :
    (Daemon.stop envStopDead dRun).actions = [StopAction.kill, StopAction.terminate] ∧
    ¬ (Daemon.stop envStopDead dRun).actions.head? = some StopAction.terminate :=
  ⟨rfl, by decide⟩

/-- C4 (amended): `Daemon.stop()` on a running daemon unconditionally issues
the forceful `kill()` first and then `terminate()` immediately, with no
grace window between or before them; it then reports success iff the
process is no longer reported running. -/
theorem C4_stop_signal_order (env : StopEnv) (d : DaemonState)
    (h : Daemon.is_running d = true) :
    (Daemon.stop env d).actions = [StopAction.kill, StopAction.terminate] ∧
    ((Daemon.stop env d).ret = Except.ok true ↔ env.alive_after = false) := by
  unfold Daemon.stop
  split
  · rename_i hp
    simp [Daemon.is_running, hp] at h
  · rename_i p hp
    split
    · rename_i halive
      simp [Daemon.is_running, hp, halive] at h
    · constructor
      · rfl
      · simp only [Daemon.is_running]
        cases env.alive_after <;> simp

/-- Witness for C4 (amended): the concrete running daemon again. -/
theorem C4_stop_signal_order_witness :
    (Daemon.stop envStopDead dRun).actions = [StopAction.kill, StopAction.terminate] ∧
    ((Daemon.stop envStopDead dRun).ret = Except.ok true ↔
      envStopDead.alive_after = false) :=
  C4_stop_signal_order envStopDead dRun rfl

/-- C5: over every sequence of start/stop calls from a fresh daemon,
`starts_count ≤ start_attempts`; moreover a `start()` call on a running
daemon mutates nothing, and a proceeding `start()` call bumps
`start_attempts` exactly once at entry and bumps `starts_count` exactly
when it returns `True` (the successful spawn), leaving it unchanged when
it returns `False`. -/
theorem C5_starts_le_attempts :
    (∀ (cfg : Config) (pf : String) (ops : List DOp),
      (runOps (Daemon.initState cfg pf) ops).starts_count ≤
        (runOps (Daemon.initState cfg pf) ops).start_attempts) ∧
    (∀ (env : StartEnv) (d : DaemonState), Daemon.is_running d = true →
      (Daemon.start env d).state = d) ∧
    (∀ (env : StartEnv) (d : DaemonState), Daemon.is_running d = false →
      (Daemon.start env d).state.start_attempts = d.start_attempts + 1 ∧
      ((Daemon.start env d).ret = Except.ok true →
        (Daemon.start env d).state.starts_count = d.starts_count + 1) ∧
      ((Daemon.start env d).ret = Except.ok false →
        (Daemon.start env d).state.starts_count = d.starts_count)) := by
  refine ⟨?_, ?_, ?_⟩
  · intro cfg pf ops
    have h := runOps_counters (Daemon.initState cfg pf) ops (initState_counters cfg pf)
    unfold countersInv at h
    omega
  · intro env d h
    rcases start_spec env d with ⟨-, hs⟩ | ⟨hf, -⟩
    · rw [hs]
    · rw [h] at hf
      cases hf
  · intro env d h
    rcases start_spec env d with ⟨ht, -⟩ | ⟨-, ha, hc | hc⟩
    · rw [h] at ht
      cases ht
    · refine ⟨ha, fun _ => hc.2.1, fun hfalse => ?_⟩
      rw [hc.1] at hfalse
      exact absurd (Except.ok.inj hfalse) (by decide)
    · refine ⟨ha, fun htrue => ?_, fun _ => hc.2.1⟩
      rw [hc.1] at htrue
      exact absurd (Except.ok.inj htrue) (by decide)

/-- Witness for C5: one successful start from a fresh daemon, the no-op on
a running daemon, and the attempt bump on a stopped daemon. -/
theorem C5_starts_le_attempts_witness :
    (runOps (Daemon.initState cfg0 "daemons") [DOp.start envStartOk]).starts_count ≤
      (runOps (Daemon.initState cfg0 "daemons") [DOp.start envStartOk]).start_attempts ∧
    (Daemon.start envStartOk dRun).state = dRun ∧
    (Daemon.start envStartOk dFresh).state.start_attempts = dFresh.start_attempts + 1 :=
  ⟨C5_starts_le_attempts.1 cfg0 "daemons" [DOp.start envStartOk],
   C5_starts_le_attempts.2.1 envStartOk dRun rfl,
   (C5_starts_le_attempts.2.2 envStartOk dFresh rfl).1⟩

/-- C2: `MAX_FAILED_STARTS` is 3; in a watcher iteration a restart is
attempted for a daemon only when its `failed_starts` budget remains; on
every reachable daemon state `failed_starts = start_attempts − starts_count`;
and a daemon with `start_attempts − starts_count ≥ MAX_FAILED_STARTS` (and
the budget identity) is never restarted by any number of further watcher
iterations — its registry entry stays exactly as it is, i.e. it sticks in
the exhausted (ERROR) condition. -/
theorem C2_watcher_restart_budget :
    MAX_FAILED_STARTS = 3 ∧
    (∀ (env : WatcherEnv) (ds : Registry) (n : String),
      n ∈ (Hell.check_iteration env ds).2 →
      ∃ d, lookupDaemon n ds = some d ∧ d.failed_starts < MAX_FAILED_STARTS) ∧
    (∀ (cfg : Config) (pf : String) (ops : List DOp),
      (runOps (Daemon.initState cfg pf) ops).failed_starts =
        (runOps (Daemon.initState cfg pf) ops).start_attempts -
          (runOps (Daemon.initState cfg pf) ops).starts_count) ∧
    (∀ (envs : Nat → WatcherEnv) (k : Nat) (ds : Registry) (n : String) (d : DaemonState),
      lookupDaemon n ds = some d →
      d.failed_starts = d.start_attempts - d.starts_count →
      MAX_FAILED_STARTS ≤ d.start_attempts - d.starts_count →
      n ∉ (Hell.check_iterations envs k ds).2 ∧
        lookupDaemon n (Hell.check_iterations envs k ds).1 = some d) := by
  refine ⟨rfl, ?_, ?_, ?_⟩
  · intro env ds n hn
    exact ((check_iteration_inv env ds) n).1 hn
  · intro cfg pf ops
    have h := runOps_counters (Daemon.initState cfg pf) ops (initState_counters cfg pf)
    unfold countersInv at h
    omega
  · intro envs k ds n d hl heq hb
    exact check_iterations_exhausted envs k ds n d hl (by rw [heq]; exact hb)

/-- Witness for C2: a daemon with budget left is restarted (so the
existence part applies), and the exhausted daemon is untouched by two
watcher iterations. -/
theorem C2_watcher_restart_budget_witness :
    (∃ d, lookupDaemon "flaky" [("flaky", dPending)] = some d ∧
      d.failed_starts < MAX_FAILED_STARTS) ∧
    ("flaky" ∉ (Hell.check_iterations (fun _ => wenv) 2 [("flaky", dExhausted)]).2 ∧
      lookupDaemon "flaky"
        (Hell.check_iterations (fun _ => wenv) 2 [("flaky", dExhausted)]).1 =
          some dExhausted) :=
  ⟨C2_watcher_restart_budget.2.1 wenv [("flaky", dPending)] "flaky" (by decide),
   C2_watcher_restart_budget.2.2.2 (fun _ => wenv) 2 [("flaky", dExhausted)] "flaky"
     dExhausted (by decide) (by decide) (by decide)⟩

/-- C3: whenever `Hell.stop()` returns with success `True`, every daemon in
the registry satisfies `is_running() = false`.  (The fallback branch for a
daemon that survives its `stop()` raises `AttributeError` — `kill_by_signal`
does not exist in `app/manager/utils.py` — so `stop` cannot return success
with a survivor.) -/
theorem C3_global_stop_stops_all (env : StopAllEnv) (h h2 : HellState) (msg : String)
    (hs : Hell.stop env h = (h2, Except.ok (true, msg))) :
    ∀ nd ∈ h2.daemons, Daemon.is_running nd.2 = false := by
  unfold Hell.stop at hs
  split at hs
  · simp [Prod.ext_iff] at hs
  · split at hs
    · simp [Prod.ext_iff] at hs
    · rename_i h2x u heq
      have hh : h2x = h2 := congrArg Prod.fst hs
      subst hh
      exact stop_all_ok env _ h2x u heq

/-- Witness for C3: stopping the one-daemon supervisor with an effective
kill leaves the `echo` daemon not running. -/
theorem C3_global_stop_stops_all_witness : Daemon.is_running dStopped7 = false :=
  C3_global_stop_stops_all stopEnvAllDead hRunning hStopped "System stopped" (by decide)
    ("echo", dStopped7) (by decide)

/-- C6 (code bug): with an existing but empty configuration document,
`Hell.start()` does not fail with an explicit CONFIG_EMPTY result: it
raises an uncaught `AttributeError` (`constants.DAEMONS_FOLDER_PATH` is
undefined) from `_update_constants`, leaving the registry empty — and the
`_load_daemons` step the claim points at would itself raise an uncaught
`KeyError` on the empty document. -/
theorem C6_empty_config_start (env : GlobalEnv)
    (hex : env.config_file_exists = true)
    (hempty : env.yaml_document = none ∨ env.yaml_document = some []) :
    (Hell.start env).2 = Except.error (PyErr.attributeError "DAEMONS_FOLDER_PATH") ∧
    (Hell.start env).1.daemons = [] ∧
    (∀ h0 : HellState,
      Hell.load_daemons [] h0 = (h0, Except.error (PyErr.keyError "daemons"))) := by
  have hload : Hell.load_config env = Except.ok [] := by
    unfold Hell.load_config
    rcases hempty with he | he <;> simp [hex, he]
  unfold Hell.start
  rw [hload]
  exact ⟨rfl, rfl, fun h0 => rfl⟩

/-- Witness for C6: the concrete empty-document environment. -/
theorem C6_empty_config_start_witness :
    (Hell.start envEmptyConfig).2 =
      Except.error (PyErr.attributeError "DAEMONS_FOLDER_PATH") ∧
    (Hell.start envEmptyConfig).1.daemons = [] :=
  ⟨(C6_empty_config_start envEmptyConfig rfl (Or.inl rfl)).1,
   (C6_empty_config_start envEmptyConfig rfl (Or.inl rfl)).2.1⟩

/-- C7: if `Hell.restart_daemon(x)` returns success (`True`), the daemon
registered under `x` afterwards is running — `get_state` reports
`running = true` — and its `starts_count` has increased by exactly one
relative to its value before the call. -/
theorem C7_restart_success (env_stop : StopEnv) (env_start : StartEnv) (name : String)
    (h h2 : HellState) (d : DaemonState)
    (hl : lookupDaemon name h.daemons = some d)
    (hr : Hell.restart_daemon env_stop env_start name h = (h2, Except.ok true)) :
    ∃ d2, lookupDaemon name h2.daemons = some d2 ∧
      Daemon.is_running d2 = true ∧
      (∀ senv : StateEnv, ∃ s, Daemon.get_state senv d2 = Except.ok s ∧ s.running = true) ∧
      d2.starts_count = d.starts_count + 1 := by
  have hsearch : Hell.search_daemon_by_name name h = Except.ok d := by
    unfold Hell.search_daemon_by_name
    rw [hl]
  unfold Hell.restart_daemon at hr
  rw [hsearch] at hr
  dsimp only at hr
  rw [if_neg (by simp [daemonTruthy])] at hr
  split at hr
  · exact Except.noConfusion (congrArg Prod.snd hr)
  · exact absurd (Except.ok.inj (congrArg Prod.snd hr)) (by decide)
  · have hret : (Daemon.start env_start (Daemon.stop env_stop d).state).ret =
        Except.ok true := congrArg Prod.snd hr
    have hh2 : h2 =
        { h with
          daemons := updateDaemon name
            (Daemon.start env_start (Daemon.stop env_stop d).state).state h.daemons } :=
      (congrArg Prod.fst hr).symm
    rcases start_spec env_start (Daemon.stop env_stop d).state with ⟨-, hs⟩ | ⟨-, -, hc | hc⟩
    · rw [hs] at hret
      cases hret
    · refine ⟨(Daemon.start env_start (Daemon.stop env_stop d).state).state, ?_, hc.2.2.2,
        fun senv => get_state_running senv _ hc.2.2.2, ?_⟩
      · rw [hh2]
        exact lookupDaemon_updateDaemon_eq name _ d h.daemons hl
      · rw [hc.2.1, (stop_counters env_stop d).1]
    · rw [hc.1] at hret
      exact absurd (Except.ok.inj hret) (by decide)

/-- Witness for C7: restarting the running `echo` daemon with an effective
kill and a live respawn bumps its `starts_count` from 0 to 1 and leaves it
running. -/
theorem C7_restart_success_witness :
    Daemon.is_running dRestarted = true ∧
    dRestarted.starts_count = dRun.starts_count + 1 := by
  obtain ⟨d2, hl2, hrun2, -, hcount⟩ :=
    C7_restart_success envStopDead envStartOk "echo" hRunning hRestarted dRun
      (by decide) (by decide)
  have h3 : lookupDaemon "echo" hRestarted.daemons = some dRestarted := by decide
  have hd : d2 = dRestarted := Option.some_inj.mp (hl2.symm.trans h3)
  subst hd
  exact ⟨hrun2, hcount⟩

/-- C8 (code bug): exchanging a stored invitation whose `expires_at` lies
before the current time marks the invitation inactive and persists that,
and creates no API key — but the handler does not deliver the 400
response: building its detail evaluates `inv.expires_at.to_value()`,
which raises an uncaught `AttributeError` (so the request surfaces as a
500, not a 400). -/
theorem C8_expired_invitation (now : Nat) (tok : String) (kid : Nat) (code : String)
    (st : Store) (inv : Invitation)
    (hfind : st.invitations.find? (fun i => i.code == code) = some inv)
    (hact : inv.active = true) (hexp : inv.expires_at < now) :
    (generate_api_key now tok kid code st).2 =
      HandlerOutcome.uncaughtError (PyErr.attributeError "to_value") ∧
    (generate_api_key now tok kid code st).1 =
      saveInvitation st { inv with active := false } ∧
    (generate_api_key now tok kid code st).1.api_keys = st.api_keys := by
  unfold generate_api_key
  rw [hfind]
  simp [hact, hexp, datetime_to_value, saveInvitation]

/-- Witness for C8: the concrete expired invitation at instant 50. -/
theorem C8_expired_invitation_witness :
    (generate_api_key 50 "T" 5 "C" storeExpired).2 =
      HandlerOutcome.uncaughtError (PyErr.attributeError "to_value") ∧
    (generate_api_key 50 "T" 5 "C" storeExpired).1.api_keys = storeExpired.api_keys :=
  ⟨(C8_expired_invitation 50 "T" 5 "C" storeExpired invExpired (by decide) rfl
      (by decide)).1,
   (C8_expired_invitation 50 "T" 5 "C" storeExpired invExpired (by decide) rfl
      (by decide)).2.2⟩

/-- C9: for a name not in the registry, `stop_daemon`, `start_daemon` and
`search_daemon_by_name` raise `KeyError` from the dict lookup rather than
returning `False`/`None`; and the `if not daemon` branch after the lookup
is unreachable on every input (a `Daemon` instance is always truthy). -/
theorem C9_missing_name (name : String) (h : HellState) (env_stop : StopEnv)
    (env_start : StartEnv) (hmiss : lookupDaemon name h.daemons = none) :
    (Hell.stop_daemon env_stop name h).2 = CallOutcome.raised (PyErr.keyError name) ∧
    (Hell.start_daemon env_start name h).2 = CallOutcome.raised (PyErr.keyError name) ∧
    Hell.search_daemon_by_name name h = Except.error (PyErr.keyError name) ∧
    (∀ (n2 : String) (h2 : HellState) (e1 : StopEnv) (e2 : StartEnv),
      (Hell.stop_daemon e1 n2 h2).2 ≠ CallOutcome.notFoundFalse ∧
      (Hell.start_daemon e2 n2 h2).2 ≠ CallOutcome.notFoundFalse) := by
  refine ⟨?_, ?_, ?_, ?_⟩
  · unfold Hell.stop_daemon
    rw [hmiss]
  · unfold Hell.start_daemon
    rw [hmiss]
  · unfold Hell.search_daemon_by_name
    rw [hmiss]
  · intro n2 h2 e1 e2
    constructor
    · unfold Hell.stop_daemon
      split
      · simp
      · rename_i d0 heq0
        rw [if_neg (by simp [daemonTruthy])]
        cases hret : (Daemon.stop e1 d0).ret <;> simp [hret]
    · unfold Hell.start_daemon
      split
      · simp
      · rename_i d0 heq0
        rw [if_neg (by simp [daemonTruthy])]
        cases hret : (Daemon.start e2 d0).ret <;> simp [hret]

/-- Witness for C9: the name `ghost` is absent from the one-daemon
registry. -/
theorem C9_missing_name_witness :
    (Hell.stop_daemon envStopDead "ghost" hRunning).2 =
      CallOutcome.raised (PyErr.keyError "ghost") ∧
    (Hell.start_daemon envStartOk "ghost" hRunning).2 =
      CallOutcome.raised (PyErr.keyError "ghost") ∧
    Hell.search_daemon_by_name "ghost" hRunning =
      Except.error (PyErr.keyError "ghost") :=
  ⟨(C9_missing_name "ghost" hRunning envStopDead envStartOk (by decide)).1,
   (C9_missing_name "ghost" hRunning envStopDead envStartOk (by decide)).2.1,
   (C9_missing_name "ghost" hRunning envStopDead envStartOk (by decide)).2.2.1⟩

/-- C10: if the venv directory already exists, `_create_venv` returns
`True` without setting `_venv_created` (the state is unchanged); a start
of a daemon with the flag unset (under an existing venv directory) spawns
with the global `python` command and leaves the flag unset; hence over any
sequence of starts under an existing venv directory the flag stays unset
and every spawn keeps using `python` rather than the venv interpreter. -/
theorem C10_preexisting_venv :
    (∀ (env : VenvEnv) (d : DaemonState), env.venv_path_exists = true →
      Daemon.create_venv env d = (true, d)) ∧
    (∀ (env : StartEnv) (d : DaemonState),
      env.install.venv.venv_path_exists = true → d.venv_created = false →
      (Daemon.start env d).state.venv_created = false ∧
      (∀ c, (Daemon.start env d).spawned_cmd = some c → c.head? = some CMD_PYTHON)) ∧
    (∀ (d : DaemonState) (envs : List StartEnv), d.venv_created = false →
      (∀ e ∈ envs, e.install.venv.venv_path_exists = true) →
      (runStarts d envs).venv_created = false) := by
  refine ⟨fun env d h => create_venv_exists env d h, ?_, ?_⟩
  · intro env d hx hv
    exact ⟨start_preserves_venv env d hx hv, start_cmd_python env d hx hv⟩
  · intro d envs hv hall
    induction envs generalizing d with
    | nil => exact hv
    | cons e rest ih =>
      exact ih _ (start_preserves_venv e d (hall e (by simp)) hv)
        (fun e2 he2 => hall e2 (by simp [he2]))

/-- Witness for C10: an existing venv directory at a fresh daemon, one
start, a spawn command, and a two-start sequence. -/
theorem C10_preexisting_venv_witness :
    Daemon.create_venv venvExistsEnv dFresh = (true, dFresh) ∧
    (Daemon.start envStartOk dFresh).state.venv_created = false ∧
    (["python", "daemons/echo/main.py", ">", "/dev/null"] : List String).head? =
      some CMD_PYTHON ∧
    (runStarts dFresh [envStartOk, envStartOk]).venv_created = false :=
  ⟨C10_preexisting_venv.1 venvExistsEnv dFresh rfl,
   (C10_preexisting_venv.2.1 envStartOk dFresh rfl rfl).1,
   (C10_preexisting_venv.2.1 envStartOk dFresh rfl rfl).2
     ["python", "daemons/echo/main.py", ">", "/dev/null"] (by decide),
   C10_preexisting_venv.2.2 dFresh [envStartOk, envStartOk] rfl (by decide)⟩

end HellSpec

